import Mathlib

/-!
# PixivArchive — shallow embedding and verification

A shallow embedding of the PixivArchive crawler pipeline (Rust sources under
`src/`): the API response envelope, tag conversion, comment assembly, series
pagination, artwork resolution, and the persistence loop, together with
theorems settling the specification claims.

External collaborators (the HTTP transport, the storage engine, the
filesystem) are represented by explicit oracle parameters; the definitions
themselves are translated from the Rust source.
-/

namespace PixivArchive

/-- Error type mirroring the fragment of `post_archiver_utils::Error` this
program produces: `InvalidResponse(message)` from envelope downcasts, an
`io::ErrorKind::NotFound` wrapper from `save_file`, and an opaque rest. -/
inductive PAError
  | invalidResponse (message : String)
  | ioNotFound (message : String)
  | other (message : String)
  deriving Repr, DecidableEq

/-- `post_archiver_utils::Result<T>`. -/
abbrev PAResult (T : Type) := Except PAError T

/-- `NullableBody<T>` from `main.rs` / `api.rs`: an untagged union of a
present body `Some(T)` and a JSON `null` decoded as `None([(); 0])`. -/
inductive NullableBody (T : Type)
  | some (t : T)
  | none
  deriving Repr, DecidableEq

/-- `PixivResponse<T>`: the JSON envelope `{error, message, body}` with a
nullable body. -/
structure PixivResponse (T : Type) where
  error : Bool
  message : String
  body : NullableBody T
  deriving Repr, DecidableEq

/-- `PixivResponse::downcast` (main.rs lines 170-177): returns the body when
present and `Error::InvalidResponse(message)` when the body is null. The
`error` flag is not inspected. -/
def PixivResponse.downcast {T : Type} (r : PixivResponse T) : PAResult T :=
  match r.body with
  | NullableBody.some body => Except.ok body
  | NullableBody.none => Except.error (PAError.invalidResponse r.message)

/-- `PixivResponseUnwrap<T>`: the envelope variant whose body is not
nullable. -/
structure PixivResponseUnwrap (T : Type) where
  error : Bool
  message : String
  body : T
  deriving Repr, DecidableEq

/-- `PixivResponseUnwrap::downcast` (main.rs lines 186-194): fails exactly
when the `error` flag is set. -/
def PixivResponseUnwrap.downcast {T : Type} (r : PixivResponseUnwrap T) : PAResult T :=
  if r.error then Except.error (PAError.invalidResponse r.message) else Except.ok r.body

/-- `fetch` (main.rs lines 216-221) and `PixivClient::fetch`
(api.rs lines 166-171): run the transport, then `and_then(downcast)`. The
transport result (network/decode success or failure) is the argument. -/
def fetch {T : Type} (transport : PAResult (PixivResponse T)) : PAResult T :=
  transport.bind PixivResponse.downcast

/-! ## Tags (`tag.rs`) -/

/-- `post_archiver::importer::UnsyncTag`: a tag name with optional platform
scoping. Platform ids are modelled as `Nat`. -/
structure UnsyncTag where
  name : String
  platform : Option Nat
  deriving Repr, DecidableEq

/-- `PixivTag` (tag.rs lines 31-37). -/
structure PixivTag where
  tag : String
  locked : Bool
  deletable : Bool
  deriving Repr, DecidableEq

/-- `PixivTags` (tag.rs lines 4-11). -/
structure PixivTags where
  author_id : String
  is_locked : Bool
  writable : Bool
  tags : List PixivTag
  deriving Repr, DecidableEq

/-- Model of Rust `str::to_lowercase` (the ASCII range suffices for the
sentinel tag names): lowercase every character. Extensionally
`String.toLower`, stated structurally so that it evaluates by kernel
reduction. -/
def to_lowercase (s : String) : String :=
  String.mk (s.data.map Char.toLower)

/-- `PixivTags::into_tags` (tag.rs lines 13-29): the sentinel names "R-18"
and "R-18G" are lowercased and left unscoped; every other name is kept
verbatim and scoped to the current platform. -/
def PixivTags.into_tags (self : PixivTags) (platform : Nat) : List UnsyncTag :=
  self.tags.map fun tag =>
    let name := tag.tag
    let is_r18 := name = "R-18" ∨ name = "R-18G"
    if is_r18 then
      { name := to_lowercase name, platform := Option.none }
    else
      { name := name, platform := Option.some platform }

/-! ## Comments (`comment.rs`) -/

/-- `PixivComment` (comment.rs lines 16-31). -/
structure PixivComment where
  user_id : String
  user_name : String
  img : String
  id : String
  comment_date : String
  comment_parent_id : Option String
  editable : Bool
  has_replies : Bool
  content : String
  stamp_id : Option String
  deriving Repr, DecidableEq

/-- `post_archiver::Comment`. -/
structure Comment where
  user : String
  text : String
  replies : List Comment
  deriving Repr

/-- The comment assembly in `get_comments` (comment.rs lines 64-71): the
text is `[content, stamp-suffix].join(" ")`, where the stamp suffix is
`"(Stamp {id})"` when `stamp_id` is present and `""` otherwise. -/
def make_comment (c : PixivComment) (replies : List Comment) : Comment :=
  { user := c.user_name
    text := String.intercalate " "
      [c.content, (c.stamp_id.map fun id => s!"(Stamp {id})").getD ""]
    replies := replies }

/-! ## Artwork identifiers and metadata (`artwork.rs`) -/

/-- `PixivArtworkId` (artwork.rs lines 32-37). -/
inductive PixivArtworkId
  | Illust (id : Nat)
  | Novel (id : Nat)
  deriving Repr, DecidableEq

/-- `PixivArtworkId::url` (artwork.rs lines 54-59): the canonical source
URL. -/
def PixivArtworkId.url : PixivArtworkId → String
  | PixivArtworkId.Illust id => s!"https://www.pixiv.net/artworks/{id}"
  | PixivArtworkId.Novel id => s!"https://www.pixiv.net/novel/show.php?id={id}"

/-- `PixivArtworkId::api_url` (artwork.rs lines 61-66): the metadata-fetch
URL. -/
def PixivArtworkId.api_url : PixivArtworkId → String
  | PixivArtworkId.Illust id => s!"https://www.pixiv.net/ajax/illust/{id}"
  | PixivArtworkId.Novel id => s!"https://www.pixiv.net/ajax/novel/{id}"

/-- `AiType` (artwork.rs lines 114-120). -/
inductive AiType
  | unknown
  | no
  | yes
  deriving Repr, DecidableEq

/-- `IllustType` (artwork.rs lines 122-128). -/
inductive IllustType
  | illust
  | manga
  | ugoira
  deriving Repr, DecidableEq

/-- `PixivArtworkContent` (artwork.rs lines 99-112): the untagged content
variant. -/
inductive PixivArtworkContent
  | Illust (illust_comment illust_id illust_title : String) (illust_type : IllustType)
  | Novel (content cover_url : String)
  deriving Repr, DecidableEq

/-- `PixivArtworkNavData` (artwork.rs lines 138-143). -/
structure PixivArtworkNavData where
  series_id : String
  title : String
  deriving Repr, DecidableEq

/-- `PixivArtwork` (artwork.rs lines 69-91). -/
structure PixivArtwork where
  id : String
  title : String
  user_id : String
  user_name : String
  ai_type : AiType
  comment_count : Nat
  comment_off : Nat
  create_date : String
  upload_date : String
  description : String
  content : PixivArtworkContent
  tags : PixivTags
  series_nav_data : Option PixivArtworkNavData
  deriving Repr, DecidableEq

/-- `PixivArtwork::has_comment` (artwork.rs lines 93-97). -/
def PixivArtwork.has_comment (a : PixivArtwork) : Bool :=
  a.comment_off = 0 && a.comment_count > 0

/-- `PixivIllustPageUrls` (artwork.rs lines 165-171). -/
structure PixivIllustPageUrls where
  original : String
  regular : String
  small : String
  thumb_mini : String
  deriving Repr, DecidableEq

/-- `PixivIllustPages` (artwork.rs lines 158-163). -/
structure PixivIllustPages where
  urls : PixivIllustPageUrls
  width : Nat
  height : Nat
  deriving Repr, DecidableEq

/-! ## File requests (`file.rs`) -/

/-- `PixivUgoiraFrame` (file.rs lines 59-63). -/
structure PixivUgoiraFrame where
  delay : Nat
  file : String
  deriving Repr, DecidableEq

/-- `PixivUgoira` (file.rs lines 51-57). -/
structure PixivUgoira where
  original_src : String
  src : String
  mime_type : String
  frames : List PixivUgoiraFrame
  deriving Repr, DecidableEq

/-- `ArchiveRequest` (file.rs lines 20-32). -/
inductive ArchiveRequest
  | image (url : String)
  | imageWithSize (url : String) (width height : Nat)
  | ugoira (url : String) (frames : List PixivUgoiraFrame)
  deriving Repr, DecidableEq

/-- `ArchiveRequest::url` (file.rs lines 35-41). -/
def ArchiveRequest.url : ArchiveRequest → String
  | ArchiveRequest.image url => url
  | ArchiveRequest.imageWithSize url _ _ => url
  | ArchiveRequest.ugoira url _ => url

/-- `ArchiveRequest::size` (file.rs lines 43-48). -/
def ArchiveRequest.size : ArchiveRequest → Option (Nat × Nat)
  | ArchiveRequest.imageWithSize _ width height => Option.some (width, height)
  | _ => Option.none

/-! ## Content assembly (`artwork.rs`, modules `common` / `illust` / `novel`) -/

/-- `post_archiver::importer::UnsyncFileMeta<ArchiveRequest>`: filename,
mime type, the request payload, and the extra metadata map (whose values
here are always JSON numbers, modelled as `Nat`). -/
structure UnsyncFileMeta where
  filename : String
  mime : String
  data : ArchiveRequest
  extra : List (String × Nat)
  deriving Repr, DecidableEq

/-- `post_archiver::importer::UnsyncContent<ArchiveRequest>`. -/
inductive UnsyncContent
  | text (s : String)
  | file (f : UnsyncFileMeta)
  deriving Repr, DecidableEq

/-- The last path segment of a URL: model of
`Url::parse(&url).path_segments().next_back()` used by
`url_into_file_meta` (artwork.rs lines 519-526) on the query-free media
URLs this program handles. -/
def last_url_segment (url : String) : String :=
  ((url.splitOn "/").getLast?).getD ""

/-- Model of `mime_guess::from_path(..).first_or_octet_stream()` restricted
to the extensions this program encounters. -/
def mime_from_path (filename : String) : String :=
  let ext := ((filename.splitOn ".").getLast?).getD ""
  if ext = "jpg" ∨ ext = "jpeg" then "image/jpeg"
  else if ext = "png" then "image/png"
  else if ext = "gif" then "image/gif"
  else if ext = "webp" then "image/webp"
  else if ext = "webm" then "video/webm"
  else "application/octet-stream"

/-- `url_into_file_meta` (artwork.rs lines 514-538): derive the filename
(defaulting to the URL's last path segment), guess the mime type, and pick
the request variant according to whether a target size is supplied. -/
def url_into_file_meta (url : String) (filename : Option String)
    (size : Option (Nat × Nat)) : UnsyncFileMeta :=
  let filename := filename.getD (last_url_segment url)
  let mime := mime_from_path filename
  { filename := filename
    mime := mime
    data :=
      match size with
      | Option.some (width, height) => ArchiveRequest.imageWithSize url width height
      | Option.none => ArchiveRequest.image url
    extra := [] }

/-- Set the extra-metadata map, mirroring the `.extra(..)` builder call. -/
def UnsyncFileMeta.withExtra (f : UnsyncFileMeta) (extra : List (String × Nat)) :
    UnsyncFileMeta :=
  { f with extra := extra }

/-- `common::parse_description` (artwork.rs lines 364-369). -/
def parse_description (a : PixivArtwork) : List UnsyncContent :=
  [UnsyncContent.text ("> " ++ (a.description.trim.replace "\n" "\n> "))]

/-- `illust::fetch_pages` (artwork.rs lines 473-495): fetch the page list
and turn every page into a file meta for its original-resolution URL with
the natural dimensions recorded as extra metadata. The transport is the
`pagesOf` oracle, keyed by request URL. -/
def fetch_pages (pagesOf : String → PAResult (List PixivIllustPages))
    (artwork_id : String) : PAResult (List UnsyncFileMeta) :=
  (pagesOf s!"https://www.pixiv.net/ajax/illust/{artwork_id}/pages?lang=ja").map
    fun pages =>
      pages.map fun page =>
        (url_into_file_meta page.urls.original Option.none Option.none).withExtra
          [("width", page.width), ("height", page.height)]

/-- `novel::parse_cover` (artwork.rs lines 501-511). -/
def parse_cover (url : String) : UnsyncFileMeta :=
  (url_into_file_meta url (Option.some "cover.jpg") (Option.some (427, 600))).withExtra
    [("width", 427), ("height", 600)]

/-- `common::get_contents_and_thumb` (artwork.rs lines 399-465). The
`pagesOf` and `ugoiraOf` oracles stand for the transport of the page-list
and ugoira-metadata fetches. A failed page-list or ugoira fetch is logged
and yields `(vec![], None)`; the ugoira branch unwraps the thumbnail before
fetching (a panic when the page list is empty), modelled by the outer
`Option` (`Option.none` = panic). -/
def get_contents_and_thumb (pagesOf : String → PAResult (List PixivIllustPages))
    (ugoiraOf : String → PAResult PixivUgoira) (a : PixivArtwork) :
    Option (List UnsyncContent × Option UnsyncFileMeta) :=
  let contents := parse_description a
  match a.content with
  | PixivArtworkContent.Illust _ _ _ illust_type =>
    match fetch_pages pagesOf a.id with
    | Except.error _ => Option.some ([], Option.none)
    | Except.ok file_metas =>
      let thumb := file_metas.head?
      match illust_type with
      | IllustType.illust =>
        Option.some (contents ++ file_metas.map UnsyncContent.file, thumb)
      | IllustType.manga =>
        Option.some (contents ++ file_metas.map UnsyncContent.file, thumb)
      | IllustType.ugoira =>
        match thumb with
        | Option.none => Option.none
        | Option.some th =>
          match ugoiraOf s!"https://www.pixiv.net/ajax/illust/{a.id}/ugoira_meta" with
          | Except.error _ => Option.some ([], Option.none)
          | Except.ok ug =>
            Option.some
              (contents ++
                [UnsyncContent.file
                  (UnsyncFileMeta.withExtra
                    { filename := "ugoira.webm"
                      mime := "video/webm"
                      data := ArchiveRequest.ugoira ug.original_src ug.frames
                      extra := [] }
                    th.extra)],
               thumb)
  | PixivArtworkContent.Novel content cover_url =>
    Option.some (contents ++ [UnsyncContent.text content],
      Option.some (parse_cover cover_url))

/-- `common::get_comments` (artwork.rs lines 375-387): the comment tree is
fetched only when the artwork allows comments and has a nonzero count; the
tree itself comes from the comment stage, abstracted by `commentsOf`. -/
def common_get_comments (commentsOf : PixivArtwork → List Comment)
    (a : PixivArtwork) : List Comment :=
  if a.has_comment then commentsOf a else []

/-! ## Storage manager (external collaborator) -/

/-- The observable state of the `PostArchiverManager`: the set of committed
posts, identified by source URL. Posts become visible only on
`transaction().commit()`. -/
structure Store where
  posts : List String
  deriving Repr, DecidableEq

/-- `manager.find_post(&source)`: does a committed post with this source
URL exist? -/
def find_post (s : Store) (source : String) : Option Unit :=
  if source ∈ s.posts then Option.some () else Option.none

/-! ## Artwork resolution stage (`resolve_artworks`, artwork.rs lines 173-240) -/

/-- One sync unit, mirroring `SyncEvent` (main.rs lines 85-93) plus the
request batch sent on the files pipeline (artwork.rs lines 212-222). -/
structure SyncEvt where
  source : String
  artwork : PixivArtwork
  contents : List UnsyncContent
  thumb : Option UnsyncFileMeta
  comments : List Comment
  files : List ArchiveRequest
  deriving Repr

/-- Observable outcome of the resolution stage: metadata-fetch URLs
attempted, sync units emitted, progress-bar increments, and panics hit. -/
structure ResolveOutcome where
  fetched : List String
  events : List SyncEvt
  progress : Nat
  panics : Nat
  deriving Repr

/-- The per-id body of `resolve_artworks` (artwork.rs lines 183-235): skip
(with a progress tick) when the store already has the post; otherwise fetch
the metadata (dropping the unit on failure), assemble contents, thumbnail
and comments, and emit the file batch plus the sync unit. `meta`, `pagesOf`
and `ugoiraOf` are the transport oracles, keyed by request URL. -/
def resolve_one (store : Store) (meta : String → PAResult PixivArtwork)
    (pagesOf : String → PAResult (List PixivIllustPages))
    (ugoiraOf : String → PAResult PixivUgoira)
    (commentsOf : PixivArtwork → List Comment)
    (id : PixivArtworkId) : ResolveOutcome :=
  if (find_post store id.url).isSome then
    { fetched := [], events := [], progress := 1, panics := 0 }
  else
    match meta id.api_url with
    | Except.error _ =>
      { fetched := [id.api_url], events := [], progress := 0, panics := 0 }
    | Except.ok artwork =>
      match get_contents_and_thumb pagesOf ugoiraOf artwork with
      | Option.none =>
        { fetched := [id.api_url], events := [], progress := 0, panics := 1 }
      | Option.some (contents, thumb) =>
        let comments := common_get_comments commentsOf artwork
        let files :=
          ((contents.filterMap fun c =>
              match c with
              | UnsyncContent.file f => Option.some f
              | UnsyncContent.text _ => Option.none) ++
            thumb.toList).map fun f => f.data
        { fetched := [id.api_url]
          events := [{ source := id.url, artwork := artwork, contents := contents
                       thumb := thumb, comments := comments, files := files }]
          progress := 1
          panics := 0 }

/-- The resolution stage over its whole input channel: the store is only
read here, so the per-id outcomes simply accumulate. -/
def resolve_artworks (store : Store) (meta : String → PAResult PixivArtwork)
    (pagesOf : String → PAResult (List PixivIllustPages))
    (ugoiraOf : String → PAResult PixivUgoira)
    (commentsOf : PixivArtwork → List Comment) :
    List PixivArtworkId → ResolveOutcome
  | [] => { fetched := [], events := [], progress := 0, panics := 0 }
  | id :: rest =>
    let r := resolve_one store meta pagesOf ugoiraOf commentsOf id
    let rs := resolve_artworks store meta pagesOf ugoiraOf commentsOf rest
    { fetched := r.fetched ++ rs.fetched
      events := r.events ++ rs.events
      progress := r.progress + rs.progress
      panics := r.panics + rs.panics }

/-! ## Download stage handshake -/

/-- The resolved URL → temp-file mapping (`HashMap<String, TempPath>`), as
a finite partial function; temp files are numbered. -/
abbrev FileMap := String → Option Nat

/-- Modelled from the spec: the Download Stage (`download_files`, referenced
by main.rs but not present under src/) fetches every request of a batch
concurrently; if every fetch succeeds it resolves the handshake with the
URL → temp-file mapping, and on any single failure the handshake is never
resolved successfully (`Option.none`). An empty batch resolves immediately
with the empty mapping. `ok` and `temp` are the per-URL transport oracles. -/
def download_batch (ok : String → Bool) (temp : String → Nat)
    (reqs : List ArchiveRequest) : Option FileMap :=
  if reqs.all fun r => ok r.url then
    Option.some fun u =>
      if (reqs.map ArchiveRequest.url).contains u then Option.some (temp u)
      else Option.none
  else Option.none

/-! ## Persistence stage (`archive_artworks`, artwork.rs lines 242-359) -/

/-- Success oracles for the persistence stage's filesystem and storage
side effects: directory creation keyed by destination path, open/copy
keyed by destination path and temp file, and the transaction commit. -/
structure IoCtx where
  createDirOk : String → Bool
  copyOk : String → Nat → Bool
  commitOk : Bool

/-- `save_file` (artwork.rs lines 326-356): optionally create the parent
directory, look the request URL up in the map — `HashMap::remove`, so the
entry is consumed — failing with a not-found error when absent, then copy
the temp file to the destination. Returns the map without the consumed
entry. -/
def save_file (io : IoCtx) (file_map : FileMap) (path url : String)
    (create_dir : Bool) : PAResult FileMap :=
  if create_dir && !io.createDirOk path then
    Except.error (PAError.other s!"failed to create directory for {path}")
  else
    match file_map url with
    | Option.none =>
      Except.error (PAError.ioNotFound s!"File not found in map: {url}")
    | Option.some temp =>
      if io.copyOk path temp then
        Except.ok fun u => if u = url then Option.none else file_map u
      else Except.error (PAError.other s!"failed to copy to {path}")

/-- The file-placement loop of `archive_artworks` (artwork.rs lines
303-311): place each (final path, request URL) pair with `save_file`,
creating the directory only for the first file; any failure aborts the
whole unit (`continue 'main`), yielding `Option.none`. -/
def place_files (io : IoCtx) : List (String × String) → FileMap → Bool → Option FileMap
  | [], fm, _ => Option.some fm
  | (path, url) :: rest, fm, create_dir =>
    match save_file io fm path url create_dir with
    | Except.error _ => Option.none
    | Except.ok fm' => place_files io rest fm' false

/-- One iteration of the persistence loop (artwork.rs lines 251-324):
await the file handshake (`Option.none` = failed/dropped), import the
author, open a transaction and sync the post — the storage manager
(abstracted by `syncResult`) answers with the final (path, original
request URL) pairs — create the first file's directory, place every file,
and only then commit, which is the sole step that makes the post visible.
Every failure skips the unit, leaving the store unchanged. -/
def archive_unit (io : IoCtx) (store : Store) (source : String)
    (filesAwait : Option FileMap) (authorOk : Bool)
    (syncResult : PAResult (List (String × String))) : Store :=
  match filesAwait with
  | Option.none => store
  | Option.some fm =>
    if !authorOk then store
    else
      match syncResult with
      | Except.error _ => store
      | Except.ok files =>
        let predirOk :=
          match files.head? with
          | Option.some (dst, _) => io.createDirOk dst
          | Option.none => true
        if !predirOk then store
        else
          match place_files io files fm true with
          | Option.none => store
          | Option.some _ =>
            if io.commitOk then { posts := source :: store.posts } else store

/-- The persistence stage over a list of sync units; `env` supplies, per
unit, the handshake result, the author-import success and the storage
manager's answer. -/
def archive_units (io : IoCtx)
    (env : SyncEvt → Option FileMap × Bool × PAResult (List (String × String))) :
    Store → List SyncEvt → Store
  | store, [] => store
  | store, e :: rest =>
    let (fa, aok, sr) := env e
    archive_units io env (archive_unit io store e.source fa aok sr) rest

/-! ## Author dedup cache (`user.rs`, `UserManager`) -/

/-- The per-run author cache `HashMap<String, AuthorId>`, as a partial
function from external user id to durable author id (`Nat`). -/
abbrev AuthorCache := String → Option Nat

/-- The empty cache `UserManager::new` starts from. -/
def emptyAuthorCache : AuthorCache := fun _ => Option.none

/-- `UserManager::get` (user.rs lines 146-176): a cache hit answers without
touching the store; a miss issues one `UnsyncAuthor::sync` call (the
`sync` oracle) and caches the id only on success. Returns the result, the
new cache, and the list of external user ids for which a store call was
issued (empty or a singleton). -/
def UserManager.get (sync : String → Except Unit Nat) (cache : AuthorCache)
    (user_id : String) : Option Nat × AuthorCache × List String :=
  match cache user_id with
  | Option.some author => (Option.some author, cache, [])
  | Option.none =>
    match sync user_id with
    | Except.ok author =>
      (Option.some author,
        fun u => if u = user_id then Option.some author else cache u,
        [user_id])
    | Except.error _ => (Option.none, cache, [user_id])

/-- The author lookups a run of the persistence loop performs, one per sync
unit in order (artwork.rs line 257): threads the cache and accumulates
every store call issued. -/
def user_run (sync : String → Except Unit Nat) :
    List String → AuthorCache → AuthorCache × List String
  | [], cache => (cache, [])
  | u :: rest, cache =>
    let step := UserManager.get sync cache u
    let r := user_run sync rest step.2.1
    (r.1, step.2.2 ++ r.2)

/-! ## Series expansion (`series.rs`) -/

/-- `PixivSeriesId` (series.rs lines 13-17). -/
inductive PixivSeriesId
  | Illust (id : Nat)
  | Novel (id : Nat)
  deriving Repr, DecidableEq

/-- `PixivSeriesId::id` (series.rs lines 20-25). -/
def PixivSeriesId.id : PixivSeriesId → Nat
  | PixivSeriesId.Illust id => id
  | PixivSeriesId.Novel id => id

/-- The page size picked at the top of `reslove_series_single`
(series.rs lines 99-102): 12 for illustration series, 30 for text series. -/
def series_limit : PixivSeriesId → Nat
  | PixivSeriesId.Illust _ => 12
  | PixivSeriesId.Novel _ => 30

/-- `PixivSeriesPage` (series.rs lines 40-48): the server-reported total
plus the two work lists (illustration works carry `work_id`, text works
carry `id`; both are strings). -/
structure PixivSeriesPage where
  total : Nat
  series : List String
  series_contents : List String
  deriving Repr, DecidableEq

/-- The page-request URL built in the loop body (series.rs lines 109-119):
illustration series are indexed by page number `p`, text series by the
running offset `last_order = (page - 1) * limit`. -/
def series_url (series : PixivSeriesId) (limit page : Nat) : String :=
  match series with
  | PixivSeriesId.Illust id =>
    s!"https://www.pixiv.net/ajax/series/{id}?lang=ja&p={page}"
  | PixivSeriesId.Novel id =>
    let order := (page - 1) * limit
    s!"https://www.pixiv.net/ajax/novel/series_content/{id}?lang=ja&last_order={order}&order_by=asc"

/-- Final status of one series expansion. -/
inductive SeriesStatus
  | done
  | fetchFailed
  | panicked
  | outOfFuel
  deriving Repr, DecidableEq

/-- Observable outcome of one series expansion: the page requests issued,
the artwork ids sent downstream, and how the loop ended. -/
structure SeriesRun where
  requests : List String
  sent : List PixivArtworkId
  status : SeriesStatus
  deriving Repr, DecidableEq

/-- Model of Rust `str::parse::<u64>` on the id strings this program
meets: all-digit nonempty strings parse to their decimal value, everything
else fails. (The u64 range bound is irrelevant at these sizes and
omitted.) Stated structurally over the character list so that it evaluates
by kernel reduction. -/
def parse_u64 (s : String) : Option Nat :=
  if s.data ≠ [] ∧ s.data.all Char.isDigit then
    Option.some (s.data.foldl (fun acc c => acc * 10 + (c.toNat - 48)) 0)
  else Option.none

/-- The send loops of series.rs lines 134-142: each listed work id is
parsed with `.parse().unwrap()` and sent; a non-numeric id panics after
the earlier items of the page were already sent. Returns the ids sent and
whether the unwrap panicked. -/
def parse_sends (mk : Nat → PixivArtworkId) : List String → List PixivArtworkId × Bool
  | [] => ([], false)
  | s :: rest =>
    match parse_u64 s with
    | Option.none => ([], true)
    | Option.some n =>
      let (ids, panicked) := parse_sends mk rest
      (mk n :: ids, panicked)

/-- The `while page * limit < total` loop of `reslove_series_single`
(series.rs lines 104-143): bump the page, fetch it (the `oracle` is the
transport, keyed by URL; a failure ends the expansion), take the new
total from the response, and send every listed work. `fuel` bounds the
iteration count of the embedding only. -/
def series_loop (oracle : String → Except Unit PixivSeriesPage)
    (series : PixivSeriesId) (limit : Nat) :
    Nat → Nat → Nat → SeriesRun
  | fuel, page, total =>
    if page * limit < total then
      match fuel with
      | 0 => { requests := [], sent := [], status := SeriesStatus.outOfFuel }
      | fuel + 1 =>
        let page := page + 1
        let url := series_url series limit page
        match oracle url with
        | Except.error _ =>
          { requests := [url], sent := [], status := SeriesStatus.fetchFailed }
        | Except.ok resp =>
          let (sentI, panicI) := parse_sends PixivArtworkId.Illust resp.series
          if panicI then
            { requests := [url], sent := sentI, status := SeriesStatus.panicked }
          else
            let (sentN, panicN) :=
              parse_sends PixivArtworkId.Novel resp.series_contents
            if panicN then
              { requests := [url], sent := sentI ++ sentN
                status := SeriesStatus.panicked }
            else
              let r := series_loop oracle series limit fuel page resp.total
              { requests := url :: r.requests, sent := sentI ++ sentN ++ r.sent
                status := r.status }
    else { requests := [], sent := [], status := SeriesStatus.done }

/-- `reslove_series_single` (series.rs lines 92-144): pick the page size
from the series kind and run the pagination loop from `page = 0`,
`total = 1`. -/
def reslove_series_single (oracle : String → Except Unit PixivSeriesPage)
    (series : PixivSeriesId) (fuel : Nat) : SeriesRun :=
  series_loop oracle series (series_limit series) fuel 0 1

/-! ## Per-file download (`archive_file`, file.rs lines 134-175) -/

/-- Success oracles for one `archive_file` call: file creation, the
download itself, the decoded dimensions of the stored image
(`Option.none` = the decode `unwrap` would panic), and the resized save. -/
structure FileIo where
  createOk : Bool
  downloadOk : Bool
  decoded : Option (Nat × Nat)
  resizeSaveOk : Bool

/-- Outcome of one `archive_file` call. -/
inductive FileOutcome
  | saved
  | failed
  | panicked
  deriving Repr, DecidableEq

/-- `archive_file` (file.rs lines 134-175): create the target (or temp)
file, download into it, resize when a target size is declared and the
decoded dimensions differ, and finally hit `todo!("Handle Ugoira frames")`
— a panic — for every animated-frames request. -/
def archive_file (io : FileIo) (request : ArchiveRequest) : FileOutcome :=
  if !io.createOk then FileOutcome.failed
  else if !io.downloadOk then FileOutcome.failed
  else
    let resize : Option FileOutcome :=
      match request.size with
      | Option.some (width, height) =>
        match io.decoded with
        | Option.none => Option.some FileOutcome.panicked
        | Option.some (sw, sh) =>
          if sw ≠ width ∨ sh ≠ height then
            if io.resizeSaveOk then Option.none else Option.some FileOutcome.failed
          else Option.none
      | Option.none => Option.none
    match resize with
    | Option.some outcome => outcome
    | Option.none =>
      match request with
      | ArchiveRequest.ugoira _ _ => FileOutcome.panicked
      | _ => FileOutcome.saved

/-! ## Timestamp parsing (`common::parse_date`, artwork.rs lines 371-373) -/

/-- Two decimal digit characters as a number. -/
def two_digits (a b : Char) : Option Nat :=
  if a.isDigit && b.isDigit then
    Option.some ((a.toNat - 48) * 10 + (b.toNat - 48))
  else Option.none

/-- A numeric offset tail `±HH:MM`. -/
def valid_num_offset : List Char → Bool
  | sign :: h1 :: h2 :: ':' :: m1 :: m2 :: [] =>
    (sign = '+' || sign = '-') &&
      (match two_digits h1 h2, two_digits m1 m2 with
       | Option.some h, Option.some m => h < 24 && m < 60
       | _, _ => false)
  | _ => false

/-- An RFC3339 offset: `Z` (either case) or `±HH:MM`. -/
def valid_offset (cs : List Char) : Bool :=
  cs = ['Z'] || cs = ['z'] || valid_num_offset cs

/-- Optional fractional seconds (one or more digits after a dot) followed
by an offset. -/
def valid_frac_offset : List Char → Bool
  | '.' :: rest =>
    let digits := rest.takeWhile Char.isDigit
    let tail := rest.dropWhile Char.isDigit
    !digits.isEmpty && valid_offset tail
  | cs => valid_offset cs

/-- Modelled from the spec: timestamps are "parsed as RFC3339" by the
external chrono library (`DateTime::parse_from_rfc3339`); this checks the
RFC3339 shape `YYYY-MM-DDTHH:MM:SS[.s+](Z|±HH:MM)` with in-range fields,
returning `Option.none` for every malformed string. -/
def parseRfc3339 (s : String) : Option Unit :=
  match s.toList with
  | y1 :: y2 :: y3 :: y4 :: '-' :: mo1 :: mo2 :: '-' :: d1 :: d2 :: 'T' ::
      h1 :: h2 :: ':' :: mi1 :: mi2 :: ':' :: s1 :: s2 :: rest =>
    if y1.isDigit && y2.isDigit && y3.isDigit && y4.isDigit then
      match two_digits mo1 mo2, two_digits d1 d2, two_digits h1 h2,
          two_digits mi1 mi2, two_digits s1 s2 with
      | Option.some mo, Option.some d, Option.some h, Option.some mi,
          Option.some sec =>
        if 1 ≤ mo && mo ≤ 12 && 1 ≤ d && d ≤ 31 && h < 24 && mi < 60 &&
            sec ≤ 60 && valid_frac_offset rest then
          Option.some ()
        else Option.none
      | _, _, _, _, _ => Option.none
    else Option.none
  | _ => Option.none

/-- `common::parse_date` up to its `.unwrap()`: the parse result whose
`Option.none` case the source unwraps — a panic. -/
def parse_date (date : String) : Option Unit :=
  parseRfc3339 date

/-- The two date parses of the post builder (artwork.rs lines 276-277),
`.published(parse_date(create_date)).updated(parse_date(upload_date))`:
`Option.none` exactly when one of the unwraps panics. -/
def persist_dates (a : PixivArtwork) : Option Unit :=
  match parse_date a.create_date, parse_date a.upload_date with
  | Option.some _, Option.some _ => Option.some ()
  | _, _ => Option.none

/-! ## Concrete fixtures

Concrete stores, oracles and inputs used to instantiate the theorems. -/

/-- A filesystem/storage context in which every side effect succeeds. -/
def allOkIo : IoCtx :=
  { createDirOk := fun _ => true, copyOk := fun _ _ => true, commitOk := true }

/-- The empty URL → temp-file mapping. -/
def emptyFileMap : FileMap := fun _ => Option.none

/-- A transport in which every download succeeds. -/
def allDownloadsOk : String → Bool := fun _ => true

/-- A trivial temp-file allocator. -/
def tempAlloc : String → Nat := fun _ => 0

/-- A per-file IO context in which everything succeeds and images decode at
1×1. -/
def allOkFileIo : FileIo :=
  { createOk := true, downloadOk := true, decoded := Option.some (1, 1)
    resizeSaveOk := true }

/-- A sample illustration artwork (id 5, single-image type, comments off). -/
def artwork5 : PixivArtwork :=
  { id := "5", title := "T", user_id := "10", user_name := "alice"
    ai_type := AiType.no, comment_count := 0, comment_off := 0
    create_date := "2021-06-01T00:00:00+09:00"
    upload_date := "2021-06-01T00:00:00+09:00"
    description := "d"
    content := PixivArtworkContent.Illust "" "5" "T" IllustType.illust
    tags := { author_id := "10", is_locked := false, writable := true, tags := [] }
    series_nav_data := Option.none }

/-- `artwork5` with a malformed (non-RFC3339) creation timestamp. -/
def artwork_bad_date : PixivArtwork :=
  { artwork5 with create_date := "not a date" }

/-- A metadata transport that always answers with `artwork5`. -/
def metaOracle5 : String → PAResult PixivArtwork := fun _ => Except.ok artwork5

/-- A metadata transport that always fails (network error). -/
def metaFail : String → PAResult PixivArtwork :=
  fun _ => Except.error (PAError.other "net")

/-- A page-list transport that always fails (network error). -/
def pagesFail : String → PAResult (List PixivIllustPages) :=
  fun _ => Except.error (PAError.other "net")

/-- An ugoira-metadata transport that always fails (network error). -/
def ugoiraFail : String → PAResult PixivUgoira :=
  fun _ => Except.error (PAError.other "net")

/-- A comment stage that returns no comments. -/
def noComments : PixivArtwork → List Comment := fun _ => []

/-- A store already holding the post for illustration 1. -/
def store1 : Store := { posts := ["https://www.pixiv.net/artworks/1"] }

/-- A series transport that answers every page request with the given
total and no listed works. -/
def constOracle (T : Nat) : String → Except Unit PixivSeriesPage :=
  fun _ => Except.ok { total := T, series := [], series_contents := [] }

/-- A series transport whose pages list a non-numeric work id. -/
def badWorkIdOracle : String → Except Unit PixivSeriesPage :=
  fun _ => Except.ok { total := 25, series := ["abc"], series_contents := [] }

/-- A series transport that always fails (network error). -/
def seriesFetchFail : String → Except Unit PixivSeriesPage :=
  fun _ => Except.error ()

/-- A URL → temp-file mapping binding every URL to temp file 0. -/
def constTempMap : FileMap := fun _ => Option.some 0

/-- An author store in which every `UnsyncAuthor::sync` call fails. -/
def authorSyncFail : String → Except Unit Nat := fun _ => Except.error ()

/-- An author store in which every `UnsyncAuthor::sync` call yields author
id 5. -/
def authorSyncOk : String → Except Unit Nat := fun _ => Except.ok 5

/-! # Theorems -/

/-- A successful `save_file` removes the looked-up URL from the map: the
`HashMap::remove` consumption. -/
theorem save_file_ok_consumed (io : IoCtx) (fm : FileMap) (path url : String)
    (cd : Bool) (fm' : FileMap)
    (h : save_file io fm path url cd = Except.ok fm') : fm' url = Option.none := by
  unfold save_file at h
  split at h
  · exact absurd h (by simp)
  · split at h
    · exact absurd h (by simp)
    · split at h
      · have := (Except.ok.injEq _ _).mp h
        rw [← this]
        simp
      · exact absurd h (by simp)

/-- A successful `save_file` only removes bindings: a URL absent from the
map before stays absent. -/
theorem save_file_ok_preserve (io : IoCtx) (fm : FileMap) (path url u : String)
    (cd : Bool) (fm' : FileMap)
    (h : save_file io fm path url cd = Except.ok fm')
    (hu : fm u = Option.none) : fm' u = Option.none := by
  unfold save_file at h
  split at h
  · exact absurd h (by simp)
  · split at h
    · exact absurd h (by simp)
    · split at h
      · have := (Except.ok.injEq _ _).mp h
        rw [← this]
        by_cases he : u = url <;> simp [he, hu]
      · exact absurd h (by simp)

/-- A successful `save_file` found its URL in the map. -/
theorem save_file_ok_found (io : IoCtx) (fm : FileMap) (path url : String)
    (cd : Bool) (fm' : FileMap)
    (h : save_file io fm path url cd = Except.ok fm') :
    fm url ≠ Option.none := by
  unfold save_file at h
  split at h
  · exact absurd h (by simp)
  · split at h
    next heq => exact absurd h (by simp)
    next temp heq => simp [heq]

/-- Placing a file list fails whenever some listed URL is not bound in the
map. -/
theorem place_files_missing (io : IoCtx) (url : String) :
    ∀ (files : List (String × String)) (fm : FileMap) (cd : Bool),
      fm url = Option.none → url ∈ files.map Prod.snd →
      place_files io files fm cd = Option.none
  | [], _, _, _, hmem => absurd hmem (by simp)
  | (p, u) :: rest, fm, cd, h, hmem => by
    simp only [place_files]
    cases hs : save_file io fm p u cd with
    | error e => rfl
    | ok fm' =>
      have hne : u ≠ url := by
        intro he
        exact save_file_ok_found io fm p u cd fm' hs (he ▸ h)
      have h' : fm' url = Option.none :=
        save_file_ok_preserve io fm p u url cd fm' hs h
      have hmem' : url ∈ rest.map Prod.snd := by
        rw [List.map_cons] at hmem
        rcases List.mem_cons.mp hmem with he | hm
        · exact absurd he.symm hne
        · exact hm
      exact place_files_missing io url rest fm' false h' hmem'

/-- Placing a file list whose URLs repeat always fails: the first
occurrence consumes the map entry, so the second lookup misses. -/
theorem place_files_dup (io : IoCtx) :
    ∀ (files : List (String × String)) (fm : FileMap) (cd : Bool),
      ¬ (files.map Prod.snd).Nodup → place_files io files fm cd = Option.none
  | [], _, _, h => absurd (by simp) h
  | (p, u) :: rest, fm, cd, h => by
    simp only [place_files]
    cases hs : save_file io fm p u cd with
    | error e => rfl
    | ok fm' =>
      rw [List.map_cons, List.nodup_cons] at h
      rcases Decidable.not_and_iff_or_not.mp h with h | h
      · have hu : fm' u = Option.none := save_file_ok_consumed io fm p u cd fm' hs
        exact place_files_missing io u rest fm' false hu (not_not.mp h)
      · exact place_files_dup io rest fm' false h

/-- When the file-placement loop fails, the persistence iteration leaves
the store untouched (the `continue 'main` path: no commit). -/
theorem archive_unit_no_commit (io : IoCtx) (store : Store) (source : String)
    (fm : FileMap) (authorOk : Bool) (files : List (String × String))
    (h : place_files io files fm true = Option.none) :
    archive_unit io store source (Option.some fm) authorOk (Except.ok files) =
      store := by
  unfold archive_unit
  by_cases ha : authorOk = true
  · simp only [ha]
    by_cases hp :
        (match files.head? with
         | Option.some (dst, _) => io.createDirOk dst
         | Option.none => true) = true
    · simp [hp, h]
    · simp [hp]
  · simp [ha]

/-- A post is in the store after a persistence iteration only if it was
there before, or the handshake resolved, the storage manager answered, the
whole placement loop succeeded and the commit succeeded. -/
theorem archive_unit_mem (io : IoCtx) (store : Store) (source source' : String)
    (fa : Option FileMap) (aok : Bool) (sr : PAResult (List (String × String)))
    (h : source' ∈ (archive_unit io store source fa aok sr).posts) :
    source' ∈ store.posts ∨
      (source' = source ∧ io.commitOk = true ∧
        ∃ (fm fm' : FileMap) (files : List (String × String)),
          fa = Option.some fm ∧ sr = Except.ok files ∧
          place_files io files fm true = Option.some fm') := by
  unfold archive_unit at h
  cases fa with
  | none => exact Or.inl h
  | some fm =>
    by_cases ha : aok = true
    · simp only [ha] at h
      cases sr with
      | error e => exact Or.inl (by simpa using h)
      | ok files =>
        simp only [] at h
        by_cases hp :
            (match files.head? with
             | Option.some (dst, _) => io.createDirOk dst
             | Option.none => true) = true
        · simp only [hp] at h
          cases hpl : place_files io files fm true with
          | none => rw [hpl] at h; exact Or.inl (by simpa using h)
          | some fm' =>
            rw [hpl] at h
            by_cases hc : io.commitOk = true
            · rw [if_pos hc] at h
              rcases List.mem_cons.mp h with he | hm
              · exact Or.inr ⟨he, hc, fm, fm', files, rfl, rfl, hpl⟩
              · exact Or.inl hm
            · rw [if_neg hc] at h
              exact Or.inl h
        · simp only [hp] at h
          exact Or.inl (by simpa using h)
    · simp only [ha] at h
      exact Or.inl (by simpa using h)

/-- C2 — atomicity of one sync unit's persistence: if placing any file
fails (including a request URL missing from the resolved mapping, which
`save_file` reports as not-found), the unit's store state is unchanged and
`find_post(source)` still reports the post absent; and conversely the post
appears only when the handshake resolved, every file was placed
successfully, and the transaction commit succeeded. -/
theorem C2_download_before_commit (io : IoCtx) (store : Store) (source : String) :
    (∀ (fm : FileMap) (authorOk : Bool) (files : List (String × String)),
      place_files io files fm true = Option.none →
      find_post store source = Option.none →
      find_post
        (archive_unit io store source (Option.some fm) authorOk
          (Except.ok files)) source = Option.none) ∧
    (∀ (fa : Option FileMap) (aok : Bool)
        (sr : PAResult (List (String × String))),
      source ∈ (archive_unit io store source fa aok sr).posts →
      source ∈ store.posts ∨
        (io.commitOk = true ∧
          ∃ (fm fm' : FileMap) (files : List (String × String)),
            fa = Option.some fm ∧ sr = Except.ok files ∧
            place_files io files fm true = Option.some fm')) := by
  constructor
  · intro fm authorOk files hfail habsent
    rw [archive_unit_no_commit io store source fm authorOk files hfail]
    exact habsent
  · intro fa aok sr h
    rcases archive_unit_mem io store source source fa aok sr h with h | ⟨_, hc, hrest⟩
    · exact Or.inl h
    · exact Or.inr ⟨hc, hrest⟩

/-- C2 — witness: a unit whose only file's URL is missing from the
resolved mapping leaves an empty store empty. -/
theorem C2_download_before_commit_witness :
    find_post
      (archive_unit allOkIo { posts := [] } "s" (Option.some emptyFileMap) true
        (Except.ok [("p", "u")])) "s" = Option.none :=
  (C2_download_before_commit allOkIo { posts := [] } "s").1 emptyFileMap true
    [("p", "u")] rfl rfl

/-- C10 — within one sync unit's persistence each request URL is consumed
from the resolved mapping at most once (`save_file` removes the entry it
looked up), so a file list in which two final paths share one originating
URL always aborts the whole unit with no commit. -/
theorem C10_duplicate_url_aborts (io : IoCtx) :
    (∀ (fm : FileMap) (path url : String) (cd : Bool) (fm' : FileMap),
      save_file io fm path url cd = Except.ok fm' → fm' url = Option.none) ∧
    (∀ (files : List (String × String)) (fm : FileMap) (cd : Bool),
      ¬ (files.map Prod.snd).Nodup → place_files io files fm cd = Option.none) ∧
    (∀ (store : Store) (source : String) (fm : FileMap) (authorOk : Bool)
        (files : List (String × String)),
      ¬ (files.map Prod.snd).Nodup →
      archive_unit io store source (Option.some fm) authorOk (Except.ok files) =
        store) := by
  refine ⟨fun fm path url cd fm' h => save_file_ok_consumed io fm path url cd fm' h,
    fun files fm cd h => place_files_dup io files fm cd h,
    fun store source fm authorOk files h => ?_⟩
  exact archive_unit_no_commit io store source fm authorOk files
    (place_files_dup io files fm true h)

/-- C10 — witness: two final paths sharing the URL "u", with every URL
bound in the mapping and all I/O succeeding, still leave the store
unchanged. -/
theorem C10_duplicate_url_aborts_witness :
    archive_unit allOkIo { posts := [] } "s" (Option.some constTempMap) true
      (Except.ok [("p1", "u"), ("p2", "u")]) = { posts := [] } :=
  (C10_duplicate_url_aborts allOkIo).2.2 { posts := [] } "s" constTempMap true
    [("p1", "u"), ("p2", "u")] (by decide)

/-- An id whose post is already in the store is skipped immediately: no
fetch, no sync unit, one progress tick. -/
theorem resolve_one_skip (store : Store) (meta : String → PAResult PixivArtwork)
    (pagesOf : String → PAResult (List PixivIllustPages))
    (ugoiraOf : String → PAResult PixivUgoira)
    (commentsOf : PixivArtwork → List Comment) (id : PixivArtworkId)
    (h : (find_post store id.url).isSome = true) :
    resolve_one store meta pagesOf ugoiraOf commentsOf id =
      { fetched := [], events := [], progress := 1, panics := 0 } := by
  simp [resolve_one, h]

/-- When every input id's post is already in the store, the whole
resolution stage fetches nothing, emits nothing, and ticks progress once
per id. -/
theorem resolve_artworks_all_present (store : Store)
    (meta : String → PAResult PixivArtwork)
    (pagesOf : String → PAResult (List PixivIllustPages))
    (ugoiraOf : String → PAResult PixivUgoira)
    (commentsOf : PixivArtwork → List Comment) :
    ∀ ids : List PixivArtworkId,
      (∀ id ∈ ids, (find_post store id.url).isSome = true) →
      resolve_artworks store meta pagesOf ugoiraOf commentsOf ids =
        { fetched := [], events := [], progress := ids.length, panics := 0 }
  | [], _ => rfl
  | id :: rest, h => by
    simp only [resolve_artworks]
    rw [resolve_one_skip store meta pagesOf ugoiraOf commentsOf id
        (h id (by simp)),
      resolve_artworks_all_present store meta pagesOf ugoiraOf commentsOf rest
        (fun i hi => h i (by simp [hi]))]
    simp [Nat.add_comm]

/-- C3 — idempotence: every id whose canonical URL already has a post in
the store is skipped immediately (no metadata fetch, no sync unit) while
progress is still incremented once per id; hence a run over
previously-committed ids emits no sync units and the persistence stage,
fed those (zero) units, performs zero new commits — the store is
unchanged. -/
theorem C3_skip_existing (store : Store) (meta : String → PAResult PixivArtwork)
    (pagesOf : String → PAResult (List PixivIllustPages))
    (ugoiraOf : String → PAResult PixivUgoira)
    (commentsOf : PixivArtwork → List Comment) (ids : List PixivArtworkId)
    (h : ∀ id ∈ ids, (find_post store id.url).isSome = true) :
    (resolve_artworks store meta pagesOf ugoiraOf commentsOf ids).events = [] ∧
    (resolve_artworks store meta pagesOf ugoiraOf commentsOf ids).fetched = [] ∧
    (resolve_artworks store meta pagesOf ugoiraOf commentsOf ids).progress =
      ids.length ∧
    (∀ (io : IoCtx)
        (env : SyncEvt → Option FileMap × Bool × PAResult (List (String × String))),
      archive_units io env store
        (resolve_artworks store meta pagesOf ugoiraOf commentsOf ids).events =
        store) := by
  rw [resolve_artworks_all_present store meta pagesOf ugoiraOf commentsOf ids h]
  exact ⟨rfl, rfl, rfl, fun io env => rfl⟩

/-- C3 — witness: a store already holding illustration 1's post, re-run on
the same seed id. -/
theorem C3_skip_existing_witness :
    (resolve_artworks store1 metaOracle5 pagesFail ugoiraFail noComments
      [PixivArtworkId.Illust 1]).events = [] ∧
    (resolve_artworks store1 metaOracle5 pagesFail ugoiraFail noComments
      [PixivArtworkId.Illust 1]).fetched = [] ∧
    (resolve_artworks store1 metaOracle5 pagesFail ugoiraFail noComments
      [PixivArtworkId.Illust 1]).progress = 1 ∧
    (∀ (io : IoCtx)
        (env : SyncEvt → Option FileMap × Bool × PAResult (List (String × String))),
      archive_units io env store1
        (resolve_artworks store1 metaOracle5 pagesFail ugoiraFail noComments
          [PixivArtworkId.Illust 1]).events = store1) :=
  C3_skip_existing store1 metaOracle5 pagesFail ugoiraFail noComments
    [PixivArtworkId.Illust 1] (by decide)

/-- A cached user id is answered from the cache for the whole rest of the
run: no further store calls, and the cached author id survives. -/
theorem user_run_cached (sync : String → Except Unit Nat) (u : String) (a : Nat) :
    ∀ (users : List String) (cache : AuthorCache), cache u = Option.some a →
      ((user_run sync users cache).2.count u = 0) ∧
      ((user_run sync users cache).1 u = Option.some a)
  | [], cache, h => ⟨by simp [user_run], by simpa [user_run] using h⟩
  | v :: rest, cache, h => by
    simp only [user_run, UserManager.get]
    cases hv : cache v with
    | some b =>
      have ih := user_run_cached sync u a rest cache h
      exact ⟨by simpa using ih.1, by simpa using ih.2⟩
    | none =>
      have huv : u ≠ v := by
        intro he
        rw [he, hv] at h
        cases h
      cases hs : sync v with
      | ok b =>
        have ih := user_run_cached sync u a rest
            (fun w => if w = v then Option.some b else cache w)
            (by simp [huv, h])
        exact ⟨by simpa [List.count_cons, huv] using ih.1, by simpa using ih.2⟩
      | error e =>
        have ih := user_run_cached sync u a rest cache h
        exact ⟨by simpa [List.count_cons, huv] using ih.1, by simpa using ih.2⟩

/-- Starting from a cache that does not know `u`, a run against a store
that can create `u`'s author issues exactly one call for `u` when some
unit mentions `u` (and none otherwise), and ends with `u` cached. -/
theorem user_run_first_call (sync : String → Except Unit Nat) (u : String)
    (a : Nat) (hsync : sync u = Except.ok a) :
    ∀ (users : List String) (cache : AuthorCache), cache u = Option.none →
      ((user_run sync users cache).2.count u = if u ∈ users then 1 else 0) ∧
      (u ∈ users → (user_run sync users cache).1 u = Option.some a)
  | [], cache, h => ⟨by simp [user_run], by simp⟩
  | v :: rest, cache, h => by
    simp only [user_run, UserManager.get]
    by_cases huv : u = v
    · subst huv
      rw [h, hsync]
      have ih := user_run_cached sync u a rest
          (fun w => if w = u then Option.some a else cache w) (by simp)
      refine ⟨?_, fun hm => by simpa using ih.2⟩
      simpa [List.count_cons] using ih.1
    · cases hv : cache v with
      | some b =>
        have ih := user_run_first_call sync u a hsync rest cache h
        refine ⟨?_, fun hm => ?_⟩
        · simpa [List.mem_cons, huv] using ih.1
        · have hm' : u ∈ rest := by
            rcases List.mem_cons.mp hm with he | hm2
            · exact absurd he huv
            · exact hm2
          simpa using ih.2 hm'
      | none =>
        cases hs : sync v with
        | ok b =>
          have ih := user_run_first_call sync u a hsync rest
              (fun w => if w = v then Option.some b else cache w)
              (by simp [huv, h])
          refine ⟨?_, fun hm => ?_⟩
          · simpa [List.mem_cons, List.count_cons, huv] using ih.1
          · have hm' : u ∈ rest := by
              rcases List.mem_cons.mp hm with he | hm2
              · exact absurd he huv
              · exact hm2
            simpa using ih.2 hm'
        | error e =>
          have ih := user_run_first_call sync u a hsync rest cache h
          refine ⟨?_, fun hm => ?_⟩
          · simpa [List.mem_cons, List.count_cons, huv] using ih.1
          · have hm' : u ∈ rest := by
              rcases List.mem_cons.mp hm with he | hm2
              · exact absurd he huv
              · exact hm2
            simpa using ih.2 hm'

/-- C4 — counterexample. The claim says the author create-or-lookup call
is issued at most once per external user id per run; but `UserManager::get`
caches only successful calls, so two units for user "7" against a store
whose author creation fails issue two calls. -/
theorem C4_author_call_cex :
    ¬ ((user_run authorSyncFail ["7", "7"] emptyAuthorCache).2.count "7" ≤ 1) := by
  decide

/-- C4 — amended: for every run and external user id whose
create-or-lookup call succeeds, the call is issued exactly once over all
sync units naming that user (and not at all otherwise), and every later
unit is served from the per-run cache, which ends up holding the durable
author id. Failed calls are not cached and may be reissued. -/
theorem C4_author_dedup_amended (sync : String → Except Unit Nat)
    (users : List String) (u : String) (a : Nat)
    (hsync : sync u = Except.ok a) :
    ((user_run sync users emptyAuthorCache).2.count u =
      if u ∈ users then 1 else 0) ∧
    (u ∈ users → (user_run sync users emptyAuthorCache).1 u = Option.some a) :=
  user_run_first_call sync u a hsync users emptyAuthorCache rfl

/-- C4 — witness: three units, two sharing user "7", against an
always-succeeding author store: exactly one call for "7". -/
theorem C4_author_dedup_amended_witness :
    (user_run authorSyncOk ["7", "7", "8"] emptyAuthorCache).2.count "7" =
      if "7" ∈ ["7", "7", "8"] then 1 else 0 :=
  (C4_author_dedup_amended authorSyncOk ["7", "7", "8"] "7" 5 rfl).1

/-- With a constant server-reported total, the pagination loop issues its
next page request exactly while the pages already issued, times the page
size, stay below the total. -/
theorem series_loop_const_count (series : PixivSeriesId) (limit T : Nat) :
    ∀ (fuel page : Nat), T ≤ (page + fuel) * limit →
      ∀ k : Nat,
        (k < (series_loop (constOracle T) series limit fuel page T).requests.length ↔
          (page + k) * limit < T) := by
  intro fuel
  induction fuel with
  | zero =>
    intro page hfuel k
    unfold series_loop
    by_cases hc : page * limit < T
    · exact absurd hc (not_lt.mpr (by simpa using hfuel))
    · simp only [hc, if_false, List.length_nil]
      constructor
      · intro hk
        exact absurd hk (by omega)
      · intro hk
        exact absurd hk
          (not_lt.mpr (le_trans (not_lt.mp hc)
            (Nat.mul_le_mul_right _ (Nat.le_add_right _ _))))
  | succ f ih =>
    intro page hfuel k
    unfold series_loop
    by_cases hc : page * limit < T
    · cases k with
      | zero =>
        simp [hc, constOracle, parse_sends]
      | succ k =>
        simp only [hc, if_true, constOracle, parse_sends]
        simp only [Nat.succ_eq_add_one, List.length_cons, Bool.false_eq_true,
          if_false]
        have hf' : T ≤ (page + 1 + f) * limit := by
          have he : page + 1 + f = page + (f + 1) := by omega
          rw [he]
          exact hfuel
        have ih' := ih (page + 1) hf' k
        rw [Nat.add_lt_add_iff_right, ih']
        have he : page + 1 + k = page + (k + 1) := by omega
        rw [he]
    · simp only [hc, if_false, List.length_nil]
      constructor
      · intro hk
        exact absurd hk (by omega)
      · intro hk
        exact absurd hk
          (not_lt.mpr (le_trans (not_lt.mp hc)
            (Nat.mul_le_mul_right _ (Nat.le_add_right _ _))))

/-- C6 — pagination: an illustration series whose reported total is 25
(page size 12) issues exactly the three page requests p=1,2,3 and then
stops; the same loop run with page size 12 over the text-series URL
scheme issues exactly the running offsets 0, 12, 24; and in general, with
a constant reported total, the k-th further page request is issued
exactly while k pages times the page size stay below the total. -/
theorem C6_series_pagination :
    ((reslove_series_single (constOracle 25) (PixivSeriesId.Illust 9) 25).requests =
      ["https://www.pixiv.net/ajax/series/9?lang=ja&p=1",
       "https://www.pixiv.net/ajax/series/9?lang=ja&p=2",
       "https://www.pixiv.net/ajax/series/9?lang=ja&p=3"]) ∧
    ((reslove_series_single (constOracle 25) (PixivSeriesId.Illust 9) 25).status =
      SeriesStatus.done) ∧
    ((series_loop (constOracle 25) (PixivSeriesId.Novel 9) 12 25 0 1).requests =
      ["https://www.pixiv.net/ajax/novel/series_content/9?lang=ja&last_order=0&order_by=asc",
       "https://www.pixiv.net/ajax/novel/series_content/9?lang=ja&last_order=12&order_by=asc",
       "https://www.pixiv.net/ajax/novel/series_content/9?lang=ja&last_order=24&order_by=asc"]) ∧
    (∀ (series : PixivSeriesId) (T fuel : Nat), 1 ≤ T →
      T ≤ fuel * series_limit series →
      ∀ k : Nat,
        (k < (reslove_series_single (constOracle T) series fuel).requests.length ↔
          k * series_limit series < T)) := by
  refine ⟨by decide, by decide, by decide, ?_⟩
  intro series T fuel hT hfuel k
  unfold reslove_series_single
  unfold series_loop
  have h01 : 0 * series_limit series < 1 := by simp
  simp only [h01, if_true]
  cases fuel with
  | zero =>
    exfalso
    simp at hfuel
    omega
  | succ f =>
    cases k with
    | zero =>
      simp only [constOracle, parse_sends, Bool.false_eq_true, if_false,
        List.length_cons, Nat.zero_mul]
      constructor
      · intro _
        omega
      · intro _
        omega
    | succ k =>
      simp only [constOracle, parse_sends, Nat.succ_eq_add_one,
        Bool.false_eq_true, if_false, List.length_cons]
      have hf' : T ≤ (1 + f) * series_limit series := by
        have he : 1 + f = f + 1 := by omega
        rw [he]
        exact hfuel
      have ih := series_loop_const_count series (series_limit series) T f 1 hf' k
      rw [Nat.add_lt_add_iff_right, ih]
      have he : 1 + k = k + 1 := by omega
      rw [he]

/-- C6 — witness: the general pagination clause instantiated at an
illustration series with total 25 and k = 2 issued pages. -/
theorem C6_series_pagination_witness :
    2 < (reslove_series_single (constOracle 25) (PixivSeriesId.Illust 7)
        25).requests.length ↔
      2 * series_limit (PixivSeriesId.Illust 7) < 25 :=
  C6_series_pagination.2.2.2 (PixivSeriesId.Illust 7) 25 25 (by decide)
    (by decide) 2

/-- C9 — counterexample. The claim says a malformed timestamp, a
non-numeric series work id, and an animated-frames download request never
terminate the process; but all three hit a panic: `parse_date` unwraps its
parse result (`Option.none` on the malformed `"not a date"` while a
well-formed timestamp parses), the series send loop unwraps the work-id
parse, and `archive_file` reaches `todo!` for every ugoira request even
with all I/O succeeding. -/
theorem C9_process_abort_cex :
    parse_date "2021-06-01T00:00:00+09:00" = Option.some () ∧
    persist_dates artwork_bad_date = Option.none ∧
    (reslove_series_single badWorkIdOracle (PixivSeriesId.Illust 9) 25).status =
      SeriesStatus.panicked ∧
    archive_file allOkFileIo (ArchiveRequest.ugoira "https://u" []) =
      FileOutcome.panicked := by
  refine ⟨by decide, by decide, by decide, rfl⟩

/-- C9 — amended: errors surfaced as `Result` values after the pipeline
starts are logged and handled without aborting — a failed metadata fetch
drops only its unit, a failed series page fetch only ends that series'
expansion — but the three unwrap/todo sites do panic: a malformed
(non-RFC3339) timestamp, a non-numeric work id in a series listing, and
an animated-frames download request each terminate abnormally rather than
being tolerated. -/
theorem C9_abort_amended :
    (∀ (store : Store) (meta : String → PAResult PixivArtwork)
        (pagesOf : String → PAResult (List PixivIllustPages))
        (ugoiraOf : String → PAResult PixivUgoira)
        (commentsOf : PixivArtwork → List Comment) (id : PixivArtworkId)
        (e : PAError),
      find_post store id.url = Option.none → meta id.api_url = Except.error e →
      resolve_artworks store meta pagesOf ugoiraOf commentsOf [id] =
        { fetched := [id.api_url], events := [], progress := 0, panics := 0 }) ∧
    ((reslove_series_single seriesFetchFail (PixivSeriesId.Novel 3) 25).status =
      SeriesStatus.fetchFailed) ∧
    (parse_date "31-12-2020" = Option.none) ∧
    ((reslove_series_single
        (fun _ => Except.ok { total := 12, series := ["x7"], series_contents := [] })
        (PixivSeriesId.Illust 4) 25).status = SeriesStatus.panicked) ∧
    (archive_file allOkFileIo
        (ArchiveRequest.ugoira "https://i.pximg.net/img-zip-ugoira/a.zip" []) =
      FileOutcome.panicked) := by
  refine ⟨?_, by decide, by decide, by decide, rfl⟩
  intro store meta pagesOf ugoiraOf commentsOf id e hfp hmeta
  simp [resolve_artworks, resolve_one, hfp, hmeta]

/-- C9 — witness for the fetch-failure clause: a failed metadata fetch for
illustration 5 against an empty store drops the unit without any panic. -/
theorem C9_abort_amended_witness :
    resolve_artworks { posts := [] } metaFail pagesFail ugoiraFail noComments
      [PixivArtworkId.Illust 5] =
      { fetched := [(PixivArtworkId.Illust 5).api_url], events := []
        progress := 0, panics := 0 } :=
  C9_abort_amended.1 { posts := [] } metaFail pagesFail ugoiraFail noComments
    (PixivArtworkId.Illust 5) (PAError.other "net") rfl rfl

/-- C5 — the divergence at the failing input: for an illustration artwork
(id 5) whose metadata fetch succeeds but whose page-list fetch fails,
`get_contents_and_thumb` returns `(vec![], None)` and `resolve_artworks`
still emits a sync unit with empty contents, no thumbnail and an empty
file batch — instead of dropping the unit. The empty batch resolves the
handshake immediately, the placement loop over zero files succeeds, and
the persistence stage commits: afterwards `find_post` reports the post
present, so the artwork is never retried, contradicting the claim that no
post is persisted for an artwork whose content fetch failed. -/
theorem C5_empty_post_committed :
    ((resolve_artworks { posts := [] } metaOracle5 pagesFail ugoiraFail noComments
        [PixivArtworkId.Illust 5]).events.map fun e =>
          (e.source, e.contents, e.thumb, e.files)) =
      [("https://www.pixiv.net/artworks/5", ([] : List UnsyncContent),
        (Option.none : Option UnsyncFileMeta), ([] : List ArchiveRequest))] ∧
    (download_batch allDownloadsOk tempAlloc []).isSome = true ∧
    find_post
      (archive_unit allOkIo { posts := [] } "https://www.pixiv.net/artworks/5"
        (download_batch allDownloadsOk tempAlloc []) true (Except.ok []))
      "https://www.pixiv.net/artworks/5" = Option.some () := by
  refine ⟨rfl, rfl, by decide⟩

/-- C1 — counterexample. The claim says an envelope with `error = true`
never yields a successful `T`; but `fetch` goes through
`PixivResponse::downcast`, which never inspects the `error` flag: the
envelope `{error: true, message: "boom", body: 42}` is returned as a
successful `42`. -/
theorem C1_error_flag_cex :
    fetch (Except.ok { error := true, message := "boom"
                       body := NullableBody.some (42 : Nat) }) =
      Except.ok 42 := rfl

/-- C1 — amended. For every API fetch of a typed body `T`, an envelope
whose body is null/absent is returned as a failure carrying the envelope's
message, never as a valid `T`; but the `error` flag is not consulted on
this path: any envelope with a present body yields that body successfully.
Only the `PixivResponseUnwrap` variant fails on `error = true`. -/
theorem C1_downcast_amended {T : Type} (r : PixivResponse T) :
    (r.body = NullableBody.none →
      fetch (Except.ok r) = Except.error (PAError.invalidResponse r.message)) ∧
    (∀ b : T, r.body = NullableBody.some b → fetch (Except.ok r) = Except.ok b) ∧
    (∀ u : PixivResponseUnwrap T, u.error = true →
      u.downcast = Except.error (PAError.invalidResponse u.message)) := by
  refine ⟨fun h => ?_, fun b h => ?_, fun u h => ?_⟩
  · simp [fetch, Except.bind, PixivResponse.downcast, h]
  · simp [fetch, Except.bind, PixivResponse.downcast, h]
  · simp [PixivResponseUnwrap.downcast, h]

/-- C1 — witness for the amended theorem at a concrete null-body envelope
and a concrete `error = true` unwrap envelope. -/
theorem C1_downcast_amended_witness :
    fetch (Except.ok ({ error := false, message := "m"
                        body := NullableBody.none } : PixivResponse Nat)) =
        Except.error (PAError.invalidResponse "m") ∧
      PixivResponseUnwrap.downcast ({ error := true, message := "m", body := 7 } :
          PixivResponseUnwrap Nat) =
        Except.error (PAError.invalidResponse "m") :=
  ⟨(C1_downcast_amended _).1 rfl, (C1_downcast_amended
      ({ error := false, message := "m", body := NullableBody.none } :
        PixivResponse Nat)).2.2 _ rfl⟩

/-- C7 — for every tag list converted for persistence, a tag named exactly
"R-18" or "R-18G" is emitted lowercased with no platform scope, every
other tag is emitted verbatim and scoped to the current platform, and in
particular the list `["R-18", "landscape"]` becomes `"r-18"` unscoped plus
`"landscape"` scoped. -/
theorem C7_tag_scoping (pt : PixivTags) (platform : Nat) :
    (PixivTags.into_tags
        { author_id := "x", is_locked := false, writable := true
          tags := [{ tag := "R-18", locked := false, deletable := false },
                   { tag := "landscape", locked := false, deletable := false }] }
        platform =
      [{ name := "r-18", platform := Option.none },
       { name := "landscape", platform := Option.some platform }]) ∧
    (∀ tg ∈ pt.tags, (tg.tag = "R-18" ∨ tg.tag = "R-18G") →
      ({ name := to_lowercase tg.tag, platform := Option.none } : UnsyncTag) ∈
        pt.into_tags platform) ∧
    (∀ tg ∈ pt.tags, ¬(tg.tag = "R-18" ∨ tg.tag = "R-18G") →
      ({ name := tg.tag, platform := Option.some platform } : UnsyncTag) ∈
        pt.into_tags platform) := by
  refine ⟨?_, fun tg hmem h => ?_, fun tg hmem h => ?_⟩
  · simp [PixivTags.into_tags]
    decide
  · simp only [PixivTags.into_tags, List.mem_map]
    exact ⟨tg, hmem, by simp [h]⟩
  · simp only [PixivTags.into_tags, List.mem_map]
    exact ⟨tg, hmem, by simp [h]⟩

/-- C7 — witness: the general clauses applied to the concrete two-tag
list with platform 3. -/
theorem C7_tag_scoping_witness :
    ({ name := "r-18", platform := Option.none } : UnsyncTag) ∈
      PixivTags.into_tags
        { author_id := "x", is_locked := false, writable := true
          tags := [{ tag := "R-18", locked := false, deletable := false },
                   { tag := "landscape", locked := false, deletable := false }] }
        3 := by
  have h :=
    (C7_tag_scoping
        { author_id := "x", is_locked := false, writable := true
          tags := [{ tag := "R-18", locked := false, deletable := false },
                   { tag := "landscape", locked := false, deletable := false }] }
        3).2.1
      { tag := "R-18", locked := false, deletable := false }
      (by simp) (Or.inl rfl)
  simpa using h

/-- C8 — a comment fetched with content `""` and stamp id `"42"` yields
the combined text `" (Stamp 42)"`: the one-space join is applied literally
and the leading space is kept (the stored text is not trimmed, so it
differs from `"(Stamp 42)"`). -/
theorem C8_comment_stamp :
    (make_comment
        { user_id := "1", user_name := "alice", img := "i", id := "9"
          comment_date := "d", comment_parent_id := Option.none
          editable := false, has_replies := false
          content := "", stamp_id := Option.some "42" }
        []).text = " (Stamp 42)" ∧
      (make_comment
        { user_id := "1", user_name := "alice", img := "i", id := "9"
          comment_date := "d", comment_parent_id := Option.none
          editable := false, has_replies := false
          content := "", stamp_id := Option.some "42" }
        []).text ≠ "(Stamp 42)" := by
  constructor
  · rfl
  · decide

end PixivArchive
